import Mathlib

/-!
Verification of the bank-analyser transaction pipeline
(`parser.py`, `categorizer.py`, `subscription_detector.py`, `analyzer.py`).

Shallow embedding conventions:
* Python floats are modelled by `PyFloat`: an exact rational together with
  the non-finite points `inf`, `ninf` and `nan`; float arithmetic is modelled
  exactly (no binary rounding), `round(x, 2)` by half-even rounding of the
  rational.
* Python strings are Lean `String`s; `str.upper` is modelled ASCII-wise.
* `dict` records become structures; a key holding `None` is `Option.none`.
* Regular-expression substitutions from `categorizer.NOISE_PATTERNS` are
  implemented directly as left-to-right, non-overlapping, greedy scanners,
  one per pattern.
-/

/-- An exact rational kept in lowest terms with a positive denominator.
    (Mathlib's `ℚ` has `@[irreducible]` arithmetic, so concrete runs of the
    embedded code could not be checked by `decide`; this type plays the
    same role with kernel-reducible operations.) -/
structure Q where
  num : ℤ
  den : ℕ
deriving DecidableEq

namespace Q

/-- Normalize `n / d` (for `d ≠ 0`) to lowest terms, positive
    denominator. -/
def norm (n d : ℤ) : Q :=
  let n := if d < 0 then -n else n
  let d : ℕ := d.natAbs
  let g := Nat.gcd n.natAbs d
  if g = 0 then ⟨0, 1⟩ else ⟨n / (g : ℤ), d / g⟩

instance (n : ℕ) : OfNat Q n := ⟨⟨(n : ℤ), 1⟩⟩

def ofInt (n : ℤ) : Q := ⟨n, 1⟩

def add (a b : Q) : Q :=
  norm (a.num * (b.den : ℤ) + b.num * (a.den : ℤ)) ((a.den : ℤ) * (b.den : ℤ))

def sub (a b : Q) : Q :=
  norm (a.num * (b.den : ℤ) - b.num * (a.den : ℤ)) ((a.den : ℤ) * (b.den : ℤ))

def mul (a b : Q) : Q :=
  norm (a.num * b.num) ((a.den : ℤ) * (b.den : ℤ))

/-- Exact division (the zero-divisor case is unreachable in guarded
    uses). -/
def div (a b : Q) : Q :=
  norm (a.num * (b.den : ℤ)) ((a.den : ℤ) * b.num)

def le (a b : Q) : Bool :=
  a.num * (b.den : ℤ) ≤ b.num * (a.den : ℤ)

def lt (a b : Q) : Bool :=
  a.num * (b.den : ℤ) < b.num * (a.den : ℤ)

/-- `⌊a⌋` (denominators are positive for normalized values). -/
def floor (a : Q) : ℤ := a.num.fdiv (a.den : ℤ)

def abs (a : Q) : Q := ⟨|a.num|, a.den⟩

/-- Round to the nearest integer, ties to even (Python's `round`). -/
def roundHalfEven (a : Q) : ℤ :=
  let f := a.floor
  let rem := a.num - f * (a.den : ℤ)
  if 2 * rem < (a.den : ℤ) then f
  else if (a.den : ℤ) < 2 * rem then f + 1
  else if f % 2 = 0 then f else f + 1

/-- Multiply by `10^e` for an integer `e` (float exponents). -/
def mulPow10 (a : Q) (e : ℤ) : Q :=
  if e ≥ 0 then norm (a.num * (10 : ℤ) ^ e.toNat) (a.den : ℤ)
  else norm a.num ((a.den : ℤ) * (10 : ℤ) ^ (-e).toNat)

end Q

/-- Model of a Python `float` value: exact rational, or one of the
    non-finite IEEE points. -/
inductive PyFloat where
  | finite (q : Q)
  | inf
  | ninf
  | nan
deriving DecidableEq

namespace PyFloat

def isnan : PyFloat → Bool
  | nan => true
  | _ => false

def isFinite : PyFloat → Bool
  | finite _ => true
  | _ => false

def add : PyFloat → PyFloat → PyFloat
  | nan, _ => nan
  | _, nan => nan
  | finite a, finite b => finite (Q.add a b)
  | finite _, inf => inf
  | finite _, ninf => ninf
  | inf, finite _ => inf
  | ninf, finite _ => ninf
  | inf, inf => inf
  | inf, ninf => nan
  | ninf, inf => nan
  | ninf, ninf => ninf

def sub : PyFloat → PyFloat → PyFloat
  | nan, _ => nan
  | _, nan => nan
  | finite a, finite b => finite (Q.sub a b)
  | finite _, inf => ninf
  | finite _, ninf => inf
  | inf, finite _ => inf
  | ninf, finite _ => ninf
  | inf, inf => nan
  | ninf, ninf => nan
  | inf, ninf => inf
  | ninf, inf => ninf

def mul : PyFloat → PyFloat → PyFloat
  | nan, _ => nan
  | _, nan => nan
  | finite a, finite b => finite (Q.mul a b)
  | finite a, inf => if Q.lt 0 a then inf else if Q.lt a 0 then ninf else nan
  | finite a, ninf => if Q.lt 0 a then ninf else if Q.lt a 0 then inf else nan
  | inf, finite b => if Q.lt 0 b then inf else if Q.lt b 0 then ninf else nan
  | ninf, finite b => if Q.lt 0 b then ninf else if Q.lt b 0 then inf else nan
  | inf, inf => inf
  | inf, ninf => ninf
  | ninf, inf => ninf
  | ninf, ninf => inf

/-- Division.  Python raises `ZeroDivisionError` on a zero divisor; every
    use in the sources is guarded, so the zero case is mapped to `nan`. -/
def div : PyFloat → PyFloat → PyFloat
  | nan, _ => nan
  | _, nan => nan
  | finite a, finite b => if b.num = 0 then nan else finite (Q.div a b)
  | finite _, inf => finite 0
  | finite _, ninf => finite 0
  | inf, finite b => if Q.lt 0 b then inf else if Q.lt b 0 then ninf else nan
  | ninf, finite b => if Q.lt 0 b then ninf else if Q.lt b 0 then inf else nan
  | inf, inf => nan
  | inf, ninf => nan
  | ninf, inf => nan
  | ninf, ninf => nan

/-- `a < b` with IEEE semantics: any comparison against `nan` is false. -/
def lt : PyFloat → PyFloat → Bool
  | nan, _ => false
  | _, nan => false
  | finite a, finite b => Q.lt a b
  | finite _, inf => true
  | finite _, ninf => false
  | inf, _ => false
  | ninf, ninf => false
  | ninf, _ => true

/-- `a <= b` with IEEE semantics: any comparison against `nan` is false. -/
def le : PyFloat → PyFloat → Bool
  | nan, _ => false
  | _, nan => false
  | finite a, finite b => Q.le a b
  | finite _, inf => true
  | finite _, ninf => false
  | inf, inf => true
  | inf, _ => false
  | ninf, _ => true

/-- Python `sum` over a list of floats (starts from `0`). -/
def sumList (l : List PyFloat) : PyFloat :=
  l.foldl add (finite 0)

/-- Python `max(iterable)`: keep the current value unless the next item is
    strictly greater. -/
def maxList (a : PyFloat) (l : List PyFloat) : PyFloat :=
  l.foldl (fun cur x => if lt cur x then x else cur) a

/-- Python `min(iterable)`. -/
def minList (a : PyFloat) (l : List PyFloat) : PyFloat :=
  l.foldl (fun cur x => if lt x cur then x else cur) a

/-- Python `round(x, 2)`. -/
def round2 : PyFloat → PyFloat
  | finite q => finite (Q.norm (Q.roundHalfEven (Q.mul q 100)) 100)
  | inf => inf
  | ninf => ninf
  | nan => nan

/-- Python `round(x, 1)`. -/
def round1 : PyFloat → PyFloat
  | finite q => finite (Q.norm (Q.roundHalfEven (Q.mul q 10)) 10)
  | inf => inf
  | ninf => ninf
  | nan => nan

/-- Division of a float by a positive machine integer (Python int). -/
def divNat (a : PyFloat) (n : ℕ) : PyFloat :=
  div a (finite ⟨(n : ℤ), 1⟩)

end PyFloat

/-! ## Python string helpers -/

/-- The whitespace characters stripped by Python's `str.strip()`
    (ASCII subset). -/
def isPyWs (c : Char) : Bool :=
  c = ' ' || c = '\t' || c = '\n' || c = '\r' || c = '\x0b' || c = '\x0c'

/-- Lowercase-to-uppercase table for ASCII letters. -/
def upPairs : List (Char × Char) :=
  [('a', 'A'), ('b', 'B'), ('c', 'C'), ('d', 'D'), ('e', 'E'), ('f', 'F'),
   ('g', 'G'), ('h', 'H'), ('i', 'I'), ('j', 'J'), ('k', 'K'), ('l', 'L'),
   ('m', 'M'), ('n', 'N'), ('o', 'O'), ('p', 'P'), ('q', 'Q'), ('r', 'R'),
   ('s', 'S'), ('t', 'T'), ('u', 'U'), ('v', 'V'), ('w', 'W'), ('x', 'X'),
   ('y', 'Y'), ('z', 'Z')]

/-- ASCII single-character model of Python `str.upper`. -/
def pyUpperChar (c : Char) : Char :=
  ((upPairs.find? (fun p => p.1 = c)).map (fun p => p.2)).getD c

/-- Python `str.upper()` (ASCII model). -/
def pyUpper (s : String) : String :=
  String.mk (s.toList.map pyUpperChar)

/-- Python `str.strip()`. -/
def pyStrip (s : String) : String :=
  String.mk (((s.toList.dropWhile isPyWs).reverse.dropWhile isPyWs).reverse)

/-- Bool version of list infix (substring) test. -/
def listContains (hay pat : List Char) : Bool :=
  match hay with
  | [] => pat.isEmpty
  | _ :: t => pat.isPrefixOf hay || listContains t pat

/-- Python's `pat in hay` substring test. -/
def strContains (hay pat : String) : Bool :=
  listContains hay.toList pat.toList

/-! ## AmountParser (`parser.parse_amount`) -/

namespace Parser

/-- Parse an unsigned decimal literal with optional fraction:
    `digits [. digits]` or `. digits`; returns the value and the rest. -/
def parseDecimal (cs : List Char) : Option (Q × List Char) :=
  let intPart := cs.takeWhile Char.isDigit
  let rest := cs.dropWhile Char.isDigit
  match rest with
  | '.' :: rest2 =>
    let fracPart := rest2.takeWhile Char.isDigit
    let rest3 := rest2.dropWhile Char.isDigit
    if intPart.isEmpty && fracPart.isEmpty then none
    else
      let iv : ℕ := intPart.foldl (fun a c => 10 * a + (c.toNat - 48)) 0
      let fv : ℕ := fracPart.foldl (fun a c => 10 * a + (c.toNat - 48)) 0
      some (Q.norm ((iv : ℤ) * (10 : ℤ) ^ fracPart.length + (fv : ℤ))
        ((10 : ℤ) ^ fracPart.length), rest3)
  | _ =>
    if intPart.isEmpty then none
    else
      let iv : ℕ := intPart.foldl (fun a c => 10 * a + (c.toNat - 48)) 0
      some (Q.ofInt (iv : ℤ), rest)

/-- Parse an optional exponent suffix `e[sign]digits`. -/
def parseExponent (cs : List Char) : Option (ℤ × List Char) :=
  match cs with
  | 'e' :: rest | 'E' :: rest =>
    let (sgn, rest2) : ℤ × List Char :=
      match rest with
      | '+' :: r => (1, r)
      | '-' :: r => (-1, r)
      | r => (1, r)
    let ds := rest2.takeWhile Char.isDigit
    let rest3 := rest2.dropWhile Char.isDigit
    if ds.isEmpty then none
    else some (sgn * (ds.foldl (fun a c => 10 * a + (c.toNat - 48)) 0 : ℕ), rest3)
  | _ => none

/-- Model of Python's `float(str)` conversion on an already
    whitespace-free string: optional sign, then `inf`/`infinity`/`nan`
    (case-insensitive) or a decimal literal with optional exponent.
    `none` models `ValueError`. -/
def pyFloatOfString (s : String) : Option PyFloat :=
  let cs := s.toList
  let (neg, cs) : Bool × List Char :=
    match cs with
    | '+' :: r => (false, r)
    | '-' :: r => (true, r)
    | r => (false, r)
  let low := cs.map Char.toLower
  if low = "infinity".toList || low = "inf".toList then
    some (if neg then PyFloat.ninf else PyFloat.inf)
  else if low = "nan".toList then
    some PyFloat.nan
  else
    match parseDecimal cs with
    | none => none
    | some (v, rest) =>
      match parseExponent rest with
      | some (e, []) =>
        some (PyFloat.finite (Q.mulPow10 (if neg then ⟨-v.num, v.den⟩ else v) e))
      | some (_, _ :: _) => none
      | none =>
        if rest.isEmpty then
          some (PyFloat.finite (if neg then ⟨-v.num, v.den⟩ else v))
        else none

/-- `re.sub(r'[£$€₹,\s]', '', value)`. -/
def stripCurrency (s : String) : String :=
  String.mk (s.toList.filter (fun c =>
    !(c = '£' || c = '$' || c = '€' || c = '₹' || c = ',' || isPyWs c)))

/-- `parser.parse_amount` on a string input (`pd.isna` is false for
    strings and the numeric-passthrough branch does not apply). -/
def parse_amount (value : String) : Option PyFloat :=
  if value = "" then none
  else
    let cleaned := (stripCurrency value).toList
    let cleaned :=
      match cleaned with
      | '(' :: rest =>
        if rest.getLast? = some ')' then '-' :: rest.dropLast else cleaned
      | _ => cleaned
    pyFloatOfString (String.mk cleaned)

end Parser

/-! ## DateParser (`subscription_detector.parse_date`) -/

/-- A calendar date (proleptic Gregorian), as produced by
    `datetime.strptime`. -/
structure Date where
  year : ℕ
  month : ℕ
  day : ℕ
deriving DecidableEq

def isLeapYear (y : ℕ) : Bool :=
  (y % 4 = 0 && y % 100 ≠ 0) || y % 400 = 0

def daysInMonth (y m : ℕ) : ℕ :=
  if m = 2 then (if isLeapYear y then 29 else 28)
  else if m = 4 || m = 6 || m = 9 || m = 11 then 30
  else 31

/-- Days in months `1..m-1` of year `y`. -/
def daysBeforeMonth (y m : ℕ) : ℕ :=
  (List.range (m - 1)).foldl (fun a i => a + daysInMonth y (i + 1)) 0

/-- Proleptic Gregorian ordinal (as in `datetime.date.toordinal`). -/
def Date.toOrdinal (d : Date) : ℕ :=
  let n := d.year - 1
  365 * n + n / 4 + n / 400 - n / 100 + daysBeforeMonth d.year d.month + d.day

/-- `(d2 - d1).days` for two datetimes at midnight. -/
def dateDiffDays (d2 d1 : Date) : ℤ :=
  (d2.toOrdinal : ℤ) - (d1.toOrdinal : ℤ)

/-- Chronological order on dates (Python `datetime` comparison). -/
def Date.ltb (a b : Date) : Bool :=
  a.year < b.year || (a.year = b.year &&
    (a.month < b.month || (a.month = b.month && a.day < b.day)))

/-- `datetime.now().year` at the time this model was written; used for
    year-less date formats. -/
def currentYear : ℕ := 2026

namespace Strptime

/-- Parse `%Y`: exactly four digits. -/
def pY4 : List Char → Option (ℕ × List Char)
  | a :: b :: c :: d :: rest =>
    if a.isDigit && b.isDigit && c.isDigit && d.isDigit then
      some (1000 * (a.toNat - 48) + 100 * (b.toNat - 48) +
            10 * (c.toNat - 48) + (d.toNat - 48), rest)
    else none
  | _ => none

/-- Parse `%y`: exactly two digits, pivoting at 68 as CPython does. -/
def pY2 : List Char → Option (ℕ × List Char)
  | a :: b :: rest =>
    if a.isDigit && b.isDigit then
      let v := 10 * (a.toNat - 48) + (b.toNat - 48)
      some (if v ≤ 68 then 2000 + v else 1900 + v, rest)
    else none
  | _ => none

/-- Parse a 1-2 digit field with CPython's alternation semantics:
    take two digits when their value lies in `1..hi`, else one digit
    `1..9`. -/
def p12 (hi : ℕ) : List Char → Option (ℕ × List Char)
  | a :: b :: rest =>
    if a.isDigit && b.isDigit then
      let v := 10 * (a.toNat - 48) + (b.toNat - 48)
      if 1 ≤ v && v ≤ hi then some (v, rest)
      else if 1 ≤ a.toNat - 48 && a.toNat - 48 ≤ 9 then
        some (a.toNat - 48, b :: rest)
      else none
    else if a.isDigit && 1 ≤ a.toNat - 48 && a.toNat - 48 ≤ 9 then
      some (a.toNat - 48, b :: rest)
    else none
  | [a] =>
    if a.isDigit && 1 ≤ a.toNat - 48 && a.toNat - 48 ≤ 9 then
      some (a.toNat - 48, [])
    else none
  | [] => none

def pDay : List Char → Option (ℕ × List Char) := p12 31

def pMonth : List Char → Option (ℕ × List Char) := p12 12

def monthAbbrs : List (List Char) :=
  ["jan".toList, "feb".toList, "mar".toList, "apr".toList, "may".toList,
   "jun".toList, "jul".toList, "aug".toList, "sep".toList, "oct".toList,
   "nov".toList, "dec".toList]

def monthFulls : List (List Char) :=
  ["january".toList, "february".toList, "march".toList, "april".toList,
   "may".toList, "june".toList, "july".toList, "august".toList,
   "september".toList, "october".toList, "november".toList,
   "december".toList]

/-- Try to match one name of `names` (case-insensitively) as a prefix;
    return its 1-based index and the rest. -/
def pName (names : List (List Char)) (cs : List Char) : Option (ℕ × List Char) :=
  let low := cs.map Char.toLower
  (names.zip (List.range names.length)).firstM (fun (nm, i) =>
    if nm.isPrefixOf low then some (i + 1, cs.drop nm.length) else none)

def pAbbr : List Char → Option (ℕ × List Char) := pName monthAbbrs

def pFull : List Char → Option (ℕ × List Char) := pName monthFulls

/-- A literal character in the format (none of ours are letters). -/
def pLit (c : Char) : List Char → Option (List Char)
  | x :: rest => if x = c then some rest else none
  | [] => none

/-- Whitespace in a strptime format matches `\s+`. -/
def pWs (cs : List Char) : Option (List Char) :=
  let rest := cs.dropWhile isPyWs
  if rest.length < cs.length then some rest else none

/-- `datetime`'s constructor validation (`ValueError` on failure). -/
def mkDate (y m d : ℕ) : Option Date :=
  if 1 ≤ y && 1 ≤ m && m ≤ 12 && 1 ≤ d && d ≤ daysInMonth y m then
    some ⟨y, m, d⟩
  else none

/-- Numeric format `A sep B sep C` where the three fields are parsed by
    the given field parsers and assembled by `mk`. -/
def numFmt (p1 p2 p3 : List Char → Option (ℕ × List Char)) (sep : Char)
    (mk : ℕ → ℕ → ℕ → Option Date) (cs : List Char) : Option Date := do
  let (a, cs) ← p1 cs
  let cs ← pLit sep cs
  let (b, cs) ← p2 cs
  let cs ← pLit sep cs
  let (c, cs) ← p3 cs
  if cs.isEmpty then mk a b c else none

/-- `%Y-%m-%d` -/
def fmtYmd (cs : List Char) : Option Date :=
  numFmt pY4 pMonth pDay '-' (fun y m d => mkDate y m d) cs

/-- `%d/%m/%Y` -/
def fmtDmY (cs : List Char) : Option Date :=
  numFmt pDay pMonth pY4 '/' (fun d m y => mkDate y m d) cs

/-- `%m/%d/%Y` -/
def fmtMdY (cs : List Char) : Option Date :=
  numFmt pMonth pDay pY4 '/' (fun m d y => mkDate y m d) cs

/-- `%d/%m/%y` -/
def fmtDmy2 (cs : List Char) : Option Date :=
  numFmt pDay pMonth pY2 '/' (fun d m y => mkDate y m d) cs

/-- `%m/%d/%y` -/
def fmtMdy2 (cs : List Char) : Option Date :=
  numFmt pMonth pDay pY2 '/' (fun m d y => mkDate y m d) cs

/-- `%d-%m-%Y` -/
def fmtDmYdash (cs : List Char) : Option Date :=
  numFmt pDay pMonth pY4 '-' (fun d m y => mkDate y m d) cs

/-- `%d %b %Y` -/
def fmtDbY (cs : List Char) : Option Date := do
  let (d, cs) ← pDay cs
  let cs ← pWs cs
  let (m, cs) ← pAbbr cs
  let cs ← pWs cs
  let (y, cs) ← pY4 cs
  if cs.isEmpty then mkDate y m d else none

/-- `%d %B %Y` -/
def fmtDBY (cs : List Char) : Option Date := do
  let (d, cs) ← pDay cs
  let cs ← pWs cs
  let (m, cs) ← pFull cs
  let cs ← pWs cs
  let (y, cs) ← pY4 cs
  if cs.isEmpty then mkDate y m d else none

/-- `%b %d, %Y` -/
def fmtBdY (cs : List Char) : Option Date := do
  let (m, cs) ← pAbbr cs
  let cs ← pWs cs
  let (d, cs) ← pDay cs
  let cs ← pLit ',' cs
  let cs ← pWs cs
  let (y, cs) ← pY4 cs
  if cs.isEmpty then mkDate y m d else none

/-- `%d %b` (strptime defaults the year to 1900). -/
def fmtDb (cs : List Char) : Option Date := do
  let (d, cs) ← pDay cs
  let cs ← pWs cs
  let (m, cs) ← pAbbr cs
  if cs.isEmpty then mkDate 1900 m d else none

/-- `%d/%m` -/
def fmtDm (cs : List Char) : Option Date := do
  let (d, cs) ← pDay cs
  let cs ← pLit '/' cs
  let (m, cs) ← pMonth cs
  if cs.isEmpty then mkDate 1900 m d else none

/-- `%m/%d` -/
def fmtMd (cs : List Char) : Option Date := do
  let (m, cs) ← pMonth cs
  let cs ← pLit '/' cs
  let (d, cs) ← pDay cs
  if cs.isEmpty then mkDate 1900 m d else none

def formats : List (List Char → Option Date) :=
  [fmtYmd, fmtDmY, fmtMdY, fmtDmy2, fmtMdy2, fmtDmYdash,
   fmtDbY, fmtDBY, fmtBdY, fmtDb, fmtDm, fmtMd]

end Strptime

/-- `subscription_detector.parse_date`: try each format in order; a
    parsed year of 1900 (the strptime default) is replaced by the
    current year. -/
def parse_date (dateStr : String) : Option Date :=
  if dateStr = "" then none
  else
    let s := (pyStrip dateStr).toList
    match (Strptime.formats.filterMap (fun f => f s)).head? with
    | none => none
    | some d => some (if d.year = 1900 then { d with year := currentYear } else d)

/-- Zero-pad a natural number to two digits. -/
def pad2 (n : ℕ) : String :=
  if n < 10 then "0" ++ toString n else toString n

/-- Zero-pad a natural number to four digits. -/
def pad4 (n : ℕ) : String :=
  if n < 10 then "000" ++ toString n
  else if n < 100 then "00" ++ toString n
  else if n < 1000 then "0" ++ toString n
  else toString n

/-- `date.strftime("%Y-%m-%d")`. -/
def Date.fmtYmd (d : Date) : String :=
  pad4 d.year ++ "-" ++ pad2 d.month ++ "-" ++ pad2 d.day

/-- `date.strftime("%Y-%m")`. -/
def Date.fmtYm (d : Date) : String :=
  pad4 d.year ++ "-" ++ pad2 d.month

/-! ## MerchantNormalizer (`categorizer.normalize_merchant`) -/

namespace Categorizer

/-- `\w` for the (uppercased, ASCII) strings handled here. -/
def isWordChar (c : Char) : Bool :=
  c.isAlphanum || c = '_'

/-- A noise matcher: given the previous character of the original string
    (`none` at the start) and the current suffix, return the length of the
    match starting here, if any. -/
def NoiseMatcher : Type := Option Char → List Char → Option ℕ

/-- `prev` is a word boundary position (for a pattern starting with a
    word character). -/
def boundaryBefore (prev : Option Char) : Bool :=
  match prev with
  | none => true
  | some c => !isWordChar c

/-- The character after the match must not be a word character
    (for a pattern ending in `\b` after a word character). -/
def boundaryAfter : List Char → Bool
  | [] => true
  | c :: _ => !isWordChar c

/-- `\bWORD\b` for a fixed word. -/
def wordPat (w : String) : NoiseMatcher := fun prev cs =>
  if boundaryBefore prev && w.toList.isPrefixOf cs &&
      boundaryAfter (cs.drop w.length) then
    some w.length
  else none

/-- `\b\d{4,}\b`. -/
def longDigitsPat : NoiseMatcher := fun prev cs =>
  let run := cs.takeWhile Char.isDigit
  if boundaryBefore prev && run.length ≥ 4 &&
      boundaryAfter (cs.drop run.length) then
    some run.length
  else none

/-- `\*+`. -/
def starsPat : NoiseMatcher := fun _ cs =>
  let run := cs.takeWhile (· = '*')
  if run.length ≥ 1 then some run.length else none

/-- `#\d+`. -/
def hashNumPat : NoiseMatcher := fun _ cs =>
  match cs with
  | '#' :: rest =>
    let run := rest.takeWhile Char.isDigit
    if run.length ≥ 1 then some (run.length + 1) else none
  | _ => none

/-- `\bWORD[seps]?\s*\w+` (the `REF:`/`CONF:#`/`TRANS:#` markers). -/
def refPat (w : String) (seps : List Char) : NoiseMatcher := fun prev cs =>
  if boundaryBefore prev && w.toList.isPrefixOf cs then
    let rest := cs.drop w.length
    let (sepLen, rest) :=
      match rest with
      | c :: r => if seps.contains c then (1, r) else (0, rest)
      | [] => (0, rest)
    let wsRun := rest.takeWhile isPyWs
    let rest2 := rest.drop wsRun.length
    let wordRun := rest2.takeWhile isWordChar
    if wordRun.length ≥ 1 then
      some (w.length + sepLen + wsRun.length + wordRun.length)
    else none
  else none

/-- `\bXX+\d*`. -/
def xxPat : NoiseMatcher := fun prev cs =>
  match cs with
  | 'X' :: 'X' :: rest =>
    if boundaryBefore prev then
      let xs := rest.takeWhile (· = 'X')
      let ds := (rest.drop xs.length).takeWhile Char.isDigit
      some (2 + xs.length + ds.length)
    else none
  | _ => none

/-- `\b\d{2}/\d{2}\b` (short embedded dates). -/
def shortDatePat : NoiseMatcher := fun prev cs =>
  match cs with
  | a :: b :: '/' :: c :: d :: rest =>
    if boundaryBefore prev && a.isDigit && b.isDigit && c.isDigit &&
        d.isDigit && boundaryAfter rest then
      some 5
    else none
  | _ => none

/-- `re.sub(pattern, '', s)`: scan the original string left to right,
    deleting non-overlapping matches. -/
def runSubFuel (m : NoiseMatcher) : ℕ → Option Char → List Char → List Char
  | 0, _, l => l
  | _ + 1, _, [] => []
  | fuel + 1, prev, c :: cs =>
    match m prev (c :: cs) with
    | some (n + 1) =>
      runSubFuel m fuel ((c :: cs).take (n + 1)).getLast? (cs.drop n)
    | some 0 => c :: runSubFuel m fuel (some c) cs
    | none => c :: runSubFuel m fuel (some c) cs

def runSub (m : NoiseMatcher) (prev : Option Char) (l : List Char) : List Char :=
  runSubFuel m l.length prev l

/-- The ordered `NOISE_PATTERNS` list from `categorizer.py`. -/
def noisePatterns : List NoiseMatcher :=
  [wordPat "POS", wordPat "EFTPOS", wordPat "VISA", wordPat "MASTERCARD",
   wordPat "DEBIT", wordPat "CARD", wordPat "PURCHASE", wordPat "PAYMENT",
   wordPat "AU", wordPat "AUS", wordPat "USA", wordPat "GBR", wordPat "USD",
   wordPat "AUD", wordPat "NZD", wordPat "PTY", wordPat "LTD", wordPat "INC",
   wordPat "LLC", wordPat "CORP",
   longDigitsPat,
   starsPat, hashNumPat, refPat "REF" [':'],
   refPat "CONF" [':', '#'], refPat "TRANS" [':', '#'],
   xxPat, shortDatePat]

/-- Apply every noise pattern in order. -/
def applyNoise (s : String) : String :=
  noisePatterns.foldl (fun acc m => String.mk (runSub m none acc.toList)) s

/-- One pass of `re.sub(r'\s+', ' ', s)`: the flag records whether the
    previous character was whitespace (already emitted as a space). -/
def collapseWsAux : Bool → List Char → List Char
  | _, [] => []
  | prevWs, c :: cs =>
    if isPyWs c then
      if prevWs then collapseWsAux true cs else ' ' :: collapseWsAux true cs
    else c :: collapseWsAux false cs

/-- `re.sub(r'\s+', ' ', s)`. -/
def collapseWs (s : String) : String :=
  String.mk (collapseWsAux false s.toList)

/-- `re.sub(r'^[^a-zA-Z0-9]+|[^a-zA-Z0-9]+$', '', s)`: trim leading and
    trailing non-alphanumerics. -/
def trimNonAlnum (s : String) : String :=
  String.mk (((s.toList.dropWhile (fun c => !c.isAlphanum)).reverse.dropWhile
    (fun c => !c.isAlphanum)).reverse)

/-- The noise-stripping stage of `normalize_merchant` (everything before
    the empty-result fallback). -/
def noiseStripped (merchant : String) : String :=
  trimNonAlnum (pyStrip (collapseWs (applyNoise (pyStrip (pyUpper merchant)))))

/-- `categorizer.normalize_merchant`. -/
def normalize_merchant (merchant : String) : String :=
  if merchant = "" then ""
  else
    let normalized := noiseStripped merchant
    if normalized ≠ "" then normalized else pyStrip (pyUpper merchant)

end Categorizer

/-! ## RecurrenceDetector (`subscription_detector.py`) -/

/-- A (categorized) transaction record.  `none` in an `Option` field
    models the Python value `None`. -/
structure Txn where
  date : String := ""
  merchant : String := ""
  normalized_merchant : Option String := none
  amount : Option PyFloat := none
  category : String := "Other"
deriving DecidableEq

/-- `txn.get("normalized_merchant") or txn.get("merchant", "")`
    (Python `or` falls through on the empty string). -/
def Txn.effMerchant (t : Txn) : String :=
  match t.normalized_merchant with
  | some s => if s = "" then t.merchant else s
  | none => t.merchant

namespace Detector

def KNOWN_SUBSCRIPTIONS : List String :=
  ["NETFLIX", "SPOTIFY", "HULU", "DISNEY", "HBO", "AMAZON PRIME",
   "APPLE MUSIC", "YOUTUBE", "PARAMOUNT", "PEACOCK", "AUDIBLE",
   "ADOBE", "MICROSOFT 365", "GOOGLE ONE", "DROPBOX", "ICLOUD",
   "PLANET FITNESS", "LA FITNESS", "ANYTIME FITNESS", "EQUINOX",
   "GYM", "FITNESS", "PELOTON",
   "ONLYFANS", "PATREON", "TWITCH",
   "AFTERPAY", "KLARNA", "ZIP PAY", "AFFIRM",
   "HEADSPACE", "CALM", "NOOM",
   "HELLO FRESH", "BLUE APRON",
   "CHATGPT", "CLAUDE", "OPENAI",
   "COMMSEC", "DIRECT DEBIT"]

def RECURRING_PATTERNS : List String :=
  ["DIRECT DEBIT", "BPAY", "AUTOPAY", "AUTO PAY"]

/-- `any(kw in merchant for kw in KNOWN_SUBSCRIPTIONS)`. -/
def isKnownSub (merchant : String) : Bool :=
  KNOWN_SUBSCRIPTIONS.any (fun kw => strContains merchant kw)

/-- `any(kw in merchant for kw in RECURRING_PATTERNS)`. -/
def isRecurringPattern (merchant : String) : Bool :=
  RECURRING_PATTERNS.any (fun kw => strContains merchant kw)

/-- Append `t` to the group keyed `key`, keeping insertion order of keys
    (Python `defaultdict` iteration order). -/
def groupInsert (key : String) (t : Txn) :
    List (String × List Txn) → List (String × List Txn)
  | [] => [(key, [t])]
  | (k, ts) :: rest =>
    if k = key then (k, ts ++ [t]) :: rest
    else (k, ts) :: groupInsert key t rest

/-- Lines 78-84: group transactions by uppercased effective merchant,
    skipping empty merchants. -/
def merchantGroups (transactions : List Txn) : List (String × List Txn) :=
  transactions.foldl (fun acc t =>
    let merchant := t.effMerchant
    if merchant = "" then acc
    else groupInsert (pyUpper merchant) t acc) []

/-- Lines 93-94: amounts with `None` and NaN filtered out. -/
def groupAmounts (txns : List Txn) : List PyFloat :=
  txns.filterMap (fun t =>
    match t.amount with
    | none => none
    | some a => if a.isnan then none else some a)

/-- Lines 95-96: parseable dates. -/
def groupDates (txns : List Txn) : List Date :=
  txns.filterMap (fun t => parse_date t.date)

/-- `sum(amounts) / len(amounts)` for the group. -/
def groupAvg (txns : List Txn) : PyFloat :=
  PyFloat.divNat (PyFloat.sumList (groupAmounts txns)) (groupAmounts txns).length

/-- Stable ascending insertion sort on dates (`dates.sort()`). -/
def insertDateAsc (d : Date) : List Date → List Date
  | [] => [d]
  | e :: es => if Date.ltb d e then d :: e :: es else e :: insertDateAsc d es

def sortDates (l : List Date) : List Date :=
  l.foldl (fun acc d => insertDateAsc d acc) []

/-- Consecutive day gaps of a date list. -/
def intervalsOf : List Date → List ℤ
  | a :: b :: rest => dateDiffDays b a :: intervalsOf (b :: rest)
  | _ => []

/-- `max(dates)` (Python keeps the current value unless strictly less). -/
def maxDate (a : Date) (l : List Date) : Date :=
  l.foldl (fun cur d => if Date.ltb cur d then d else cur) a

/-- Format a rational with no decimals (`f"{x:.0f}"`). -/
def fmtQ0 (q : Q) : String :=
  let n := Q.roundHalfEven q
  if n < 0 then "-" ++ toString (-n).toNat else toString n.toNat

/-- Format a float with two decimals (`f"{x:.2f}"`). -/
def fmtF2 : PyFloat → String
  | PyFloat.finite q =>
    let c := Q.roundHalfEven (Q.mul q 100)
    let sgn := if c < 0 then "-" else ""
    let m := c.natAbs
    sgn ++ toString (m / 100) ++ "." ++ pad2 (m % 100)
  | PyFloat.inf => "inf"
  | PyFloat.ninf => "-inf"
  | PyFloat.nan => "nan"

/-- Lines 132-153: the first-match confidence ladder. -/
def confidenceReason (is_known_sub is_recurring_pattern : Bool) (nTxns : ℕ)
    (is_consistent is_loosely_consistent is_periodic : Bool)
    (avg_interval : Q) (avg_amount : PyFloat) : Q × String :=
  if is_known_sub then
    (⟨19, 20⟩, "Known subscription service")
  else if is_recurring_pattern && nTxns ≥ 3 && is_periodic then
    (⟨9, 10⟩, "Recurring payment: " ++ toString nTxns ++ " charges, ~" ++
      fmtQ0 avg_interval ++ " days apart")
  else if nTxns ≥ 3 && is_consistent && is_periodic then
    (⟨17, 20⟩, "Recurring pattern: " ++ toString nTxns ++ " charges, ~" ++
      fmtQ0 avg_interval ++ " days apart")
  else if is_recurring_pattern && nTxns ≥ 3 && is_loosely_consistent then
    (⟨3, 4⟩, "Direct debit: " ++ toString nTxns ++ " charges of ~$" ++
      fmtF2 avg_amount)
  else if nTxns ≥ 2 && is_consistent then
    (⟨7, 10⟩, "Consistent amounts: " ++ toString nTxns ++ " charges of ~$" ++
      fmtF2 avg_amount)
  else if is_known_sub || (nTxns = 1 && is_known_sub) then
    (⟨3, 5⟩, "Known subscription (single charge)")
  else (0, "")

/-- A detected subscription (`subscription_detector.detect_subscriptions`
    output element). -/
structure Subscription where
  merchant : String
  monthly_cost : PyFloat
  annual_cost : PyFloat
  confidence : Q
  last_date : String
  occurrences : ℕ
  reason : String
deriving DecidableEq

/-- Line 106: `amount_variance = max_amount - min_amount`. -/
def amountVariance (txns : List Txn) : PyFloat :=
  let amounts := groupAmounts txns
  PyFloat.sub (PyFloat.maxList (amounts.headD PyFloat.nan) amounts.tail)
    (PyFloat.minList (amounts.headD PyFloat.nan) amounts.tail)

/-- Lines 107-110: variance ≤ $2 or ≤ 5% of the average. -/
def isConsistentG (txns : List Txn) : Bool :=
  PyFloat.le (amountVariance txns) (PyFloat.finite 2) ||
    (PyFloat.lt (PyFloat.finite 0) (groupAvg txns) &&
      PyFloat.le (PyFloat.div (amountVariance txns) (groupAvg txns))
        (PyFloat.finite ⟨1, 20⟩))

/-- Lines 117-120: variance ≤ $10 or ≤ 15% of the average. -/
def isLooselyConsistentG (txns : List Txn) : Bool :=
  PyFloat.le (amountVariance txns) (PyFloat.finite 10) ||
    (PyFloat.lt (PyFloat.finite 0) (groupAvg txns) &&
      PyFloat.le (PyFloat.div (amountVariance txns) (groupAvg txns))
        (PyFloat.finite ⟨3, 20⟩))

/-- Lines 125-128: mean gap in days between consecutive (sorted) dated
    occurrences; 0 with fewer than two dates. -/
def avgIntervalG (txns : List Txn) : Q :=
  let dates := groupDates txns
  let intervals := intervalsOf (sortDates dates)
  if dates.length ≥ 2 && !intervals.isEmpty then
    Q.norm (intervals.foldl (· + ·) 0) (intervals.length : ℤ)
  else 0

/-- Line 130: monthly cadence band, 25-35 day mean interval. -/
def isPeriodicG (txns : List Txn) : Bool :=
  (groupDates txns).length ≥ 2 &&
    Q.le 25 (avgIntervalG txns) && Q.le (avgIntervalG txns) 35

/-- Line 157: `max(dates).strftime("%Y-%m-%d") if dates else ""`. -/
def lastDateG (txns : List Txn) : String :=
  match sortDates (groupDates txns) with
  | [] => ""
  | d :: ds => (maxDate d ds).fmtYmd

/-- Lines 88-167: score one merchant group and build its subscription
    entry if it passes the emission gate. -/
def processGroup (merchant : String) (txns : List Txn) : Option Subscription :=
  if txns.length = 0 then none
  else if (groupAmounts txns).isEmpty then none
  else
    let cr := confidenceReason (isKnownSub merchant) (isRecurringPattern merchant)
      txns.length (isConsistentG txns) (isLooselyConsistentG txns)
      (isPeriodicG txns) (avgIntervalG txns) (groupAvg txns)
    if Q.le ⟨1, 2⟩ cr.1 &&
        PyFloat.lt (PyFloat.finite 0) (groupAvg txns) && !(groupAvg txns).isnan then
      some
        { merchant := merchant
          monthly_cost := PyFloat.round2 (groupAvg txns)
          annual_cost := PyFloat.round2 (PyFloat.mul (groupAvg txns) (PyFloat.finite 12))
          confidence := cr.1
          last_date := lastDateG txns
          occurrences := txns.length
          reason := cr.2 }
    else none

/-- Python's stable `list.sort(key=..., reverse=True)`: insert each
    element after every earlier element whose key is not smaller. -/
def insertDescBy {α : Type} (key : α → PyFloat) (x : α) : List α → List α
  | [] => [x]
  | y :: ys =>
    if PyFloat.lt (key y) (key x) then x :: y :: ys
    else y :: insertDescBy key x ys

def sortDescBy {α : Type} (key : α → PyFloat) (l : List α) : List α :=
  l.foldl (fun acc x => insertDescBy key x acc) []

/-- `subscription_detector.detect_subscriptions`. -/
def detect_subscriptions (transactions : List Txn) : List Subscription :=
  sortDescBy (fun s => s.monthly_cost)
    ((merchantGroups transactions).filterMap (fun g => processGroup g.1 g.2))

/-- `subscription_detector.detect_date_range`. -/
def detect_date_range (transactions : List Txn) :
    Option Date × Option Date × ℤ :=
  let dates := transactions.filterMap (fun t => parse_date t.date)
  match dates with
  | [] => (none, none, 0)
  | d :: ds =>
    let startD := ds.foldl (fun cur x => if Date.ltb x cur then x else cur) d
    let endD := maxDate d ds
    (some startD, some endD, dateDiffDays endD startD)

end Detector

/-! ## Month comparison (`subscription_detector.generate_month_comparison`) -/

namespace Detector

/-- One per-month bucket: total, count and per-category totals
    (insertion-ordered association lists). -/
structure MonthData where
  total : PyFloat
  count : ℕ
  categories : List (String × PyFloat)
deriving DecidableEq

/-- Add `v` to the entry of `key` (insertion-ordered `defaultdict(float)`). -/
def bumpAssoc (key : String) (v : PyFloat) :
    List (String × PyFloat) → List (String × PyFloat)
  | [] => [(key, PyFloat.add (PyFloat.finite 0) v)]
  | (k, x) :: rest =>
    if k = key then (k, PyFloat.add x v) :: rest
    else (k, x) :: bumpAssoc key v rest

def bumpMonth (key : String) (v : PyFloat) (category : String) :
    List (String × MonthData) → List (String × MonthData)
  | [] => [(key, ⟨PyFloat.add (PyFloat.finite 0) v, 1,
      bumpAssoc category v []⟩)]
  | (k, d) :: rest =>
    if k = key then
      (k, ⟨PyFloat.add d.total v, d.count + 1,
        bumpAssoc category v d.categories⟩) :: rest
    else (k, d) :: bumpMonth key v category rest

/-- Lines 209-230: bucket non-Income transactions with parseable dates by
    `"%Y-%m"` month key (a transaction whose `amount` is `None` would
    raise in Python; it is treated as 0 here and excluded by hypothesis in
    the theorems that quantify over transaction lists). -/
def monthlyData (transactions : List Txn) : List (String × MonthData) :=
  transactions.foldl (fun acc t =>
    match parse_date t.date with
    | none => acc
    | some d =>
      if t.category = "Income" then acc
      else bumpMonth d.fmtYm (t.amount.getD (PyFloat.finite 0)) t.category acc) []

structure CategoryChange where
  category : String
  previous : PyFloat
  current : PyFloat
  change : PyFloat
  change_percent : PyFloat
deriving DecidableEq

structure MonthComparison where
  previous_month : String
  current_month : String
  previous_total : PyFloat
  current_total : PyFloat
  total_change : PyFloat
  total_change_percent : PyFloat
  top_changes : List CategoryChange
  spikes : List CategoryChange
  months_analyzed : ℕ
deriving DecidableEq

/-- Codepoint-lexicographic order on char lists (Python string `<`). -/
def charListLt : List Char → List Char → Bool
  | [], [] => false
  | [], _ :: _ => true
  | _ :: _, [] => false
  | a :: as, b :: bs =>
    if a.toNat < b.toNat then true
    else if b.toNat < a.toNat then false
    else charListLt as bs

/-- String comparison used to sort `"%Y-%m"` keys. -/
def strLtb (a b : String) : Bool := charListLt a.toList b.toList

def insertStrAsc (s : String) : List String → List String
  | [] => [s]
  | x :: xs => if strLtb s x then s :: x :: xs else x :: insertStrAsc s xs

def sortStrings (l : List String) : List String :=
  l.foldl (fun acc s => insertStrAsc s acc) []

/-- `prev_data["categories"].get(cat, 0)`. -/
def lookup0 (l : List (String × PyFloat)) (key : String) : PyFloat :=
  match l.find? (fun p => p.1 = key) with
  | some p => p.2
  | none => PyFloat.finite 0

/-- Absolute value of a float key (`abs(x["change"])`). -/
def pyAbs : PyFloat → PyFloat
  | PyFloat.finite q => PyFloat.finite (Q.abs q)
  | PyFloat.inf => PyFloat.inf
  | PyFloat.ninf => PyFloat.inf
  | PyFloat.nan => PyFloat.nan

/-- `subscription_detector.generate_month_comparison`. -/
def generate_month_comparison (transactions : List Txn) :
    Option MonthComparison :=
  let r := detect_date_range transactions
  if r.2.2 < 60 then none
  else
    let md := monthlyData transactions
    if md.length < 2 then none
    else
      let sortedMonths := sortStrings (md.map (·.1))
      match (sortedMonths.drop (sortedMonths.length - 2)) with
      | [prevMonth, currMonth] =>
        let prevData := (md.find? (fun p => p.1 = prevMonth)).map (·.2)
          |>.getD ⟨PyFloat.finite 0, 0, []⟩
        let currData := (md.find? (fun p => p.1 = currMonth)).map (·.2)
          |>.getD ⟨PyFloat.finite 0, 0, []⟩
        let totalChange := PyFloat.sub currData.total prevData.total
        let totalChangePct :=
          if PyFloat.lt (PyFloat.finite 0) prevData.total then
            PyFloat.mul (PyFloat.div totalChange prevData.total)
              (PyFloat.finite 100)
          else PyFloat.finite 0
        let allCategories := prevData.categories.map (·.1) ++
          (currData.categories.map (·.1)).filter
            (fun c => !(prevData.categories.map (·.1)).contains c)
        let changes := allCategories.map (fun cat =>
          let prevAmt := lookup0 prevData.categories cat
          let currAmt := lookup0 currData.categories cat
          let change := PyFloat.sub currAmt prevAmt
          let changePct :=
            if PyFloat.lt (PyFloat.finite 0) prevAmt then
              PyFloat.mul (PyFloat.div change prevAmt) (PyFloat.finite 100)
            else if PyFloat.lt (PyFloat.finite 0) currAmt then
              PyFloat.finite 100
            else PyFloat.finite 0
          ({ category := cat
             previous := PyFloat.round2 prevAmt
             current := PyFloat.round2 currAmt
             change := PyFloat.round2 change
             change_percent := PyFloat.round1 changePct } : CategoryChange))
        let sortedChanges := sortDescBy (fun c => pyAbs c.change) changes
        let spikes := sortedChanges.filter (fun c =>
          PyFloat.lt (PyFloat.finite 30) c.change_percent &&
          PyFloat.lt (PyFloat.finite 20) c.change)
        some
          { previous_month := prevMonth
            current_month := currMonth
            previous_total := PyFloat.round2 prevData.total
            current_total := PyFloat.round2 currData.total
            total_change := PyFloat.round2 totalChange
            total_change_percent := PyFloat.round1 totalChangePct
            top_changes := sortedChanges.take 5
            spikes := spikes.take 3
            months_analyzed := sortedMonths.length }
      | _ => none

end Detector

/-! ## LeakAnalyzer (`analyzer.py`) -/

namespace Analyzer

open Detector

def FEE_KEYWORDS : List String :=
  ["FEE", "CHARGE", "FX", "OVERDRAFT", "SERVICE", "ATM", "MAINTENANCE",
   "FOREIGN TRANSACTION", "MONTHLY FEE", "ANNUAL FEE", "LATE FEE",
   "INTEREST CHARGE", "FINANCE CHARGE"]

def FOOD_DELIVERY_KEYWORDS : List String :=
  ["UBER EATS", "UBEREATS", "DOORDASH", "MENULOG", "DELIVEROO",
   "GRUBHUB", "POSTMATES", "CAVIAR", "SEAMLESS", "JUST EAT",
   "SKIP THE DISHES", "INSTACART", "GOPUFF"]

/-- A spending leak (`analyzer` leak dict). -/
structure Leak where
  category : String
  merchant : String
  monthly_cost : PyFloat
  yearly_cost : PyFloat
  explanation : String
deriving DecidableEq

/-- `t.get("normalized_merchant") or t["merchant"]` (line 152). -/
def leakKey (t : Txn) : String := t.effMerchant

/-- Lines 150-154: group transactions by merchant key, accumulating the
    running total (`t["amount"]`; a `None` amount would raise in Python
    and is treated as 0 here). -/
def merchantData (transactions : List Txn) :
    List (String × List Txn × PyFloat) :=
  transactions.foldl (fun acc t => bump acc t) []
where
  bump : List (String × List Txn × PyFloat) → Txn →
      List (String × List Txn × PyFloat)
    | [], t => [(leakKey t, [t], PyFloat.add (PyFloat.finite 0)
        (t.amount.getD (PyFloat.finite 0)))]
    | (k, ts, tot) :: rest, t =>
      if k = leakKey t then
        (k, ts ++ [t], PyFloat.add tot (t.amount.getD (PyFloat.finite 0))) :: rest
      else (k, ts, tot) :: bump rest t

/-- `analyzer._estimate_months`. -/
def estimateMonths (transactions : List Txn) : ℕ :=
  let r := detect_date_range transactions
  if r.2.2 > 0 then max 1 (r.2.2.toNat / 30) else 3

/-- Lines 160-171: subscriptions with confidence ≥ 0.5 become
    `"Subscription"` leaks. -/
def subscriptionLeaks (subscriptions : List Subscription) : List Leak :=
  subscriptions.filterMap (fun sub =>
    if Q.le ⟨1, 2⟩ sub.confidence then
      some
        { category := "Subscription"
          merchant := sub.merchant
          monthly_cost := sub.monthly_cost
          yearly_cost := sub.annual_cost
          explanation := sub.reason }
    else none)

/-- The merchants excluded from the fee / food-delivery / micro scans. -/
def subscriptionMerchants (subscriptions : List Subscription) : List String :=
  (subscriptions.filter (fun sub => Q.le ⟨1, 2⟩ sub.confidence)).map
    (·.merchant)

/-- `analyzer._detect_fees`. -/
def detectFees (md : List (String × List Txn × PyFloat))
    (excludeMerchants : List String) : List Leak :=
  md.filterMap (fun g =>
    if excludeMerchants.contains g.1 then none
    else if FEE_KEYWORDS.any (fun kw => strContains g.1 kw) then
      let monthlyCost := PyFloat.divNat g.2.2 (max 1 (estimateMonths g.2.1))
      some
        { category := "Fees & Charges"
          merchant := g.1
          monthly_cost := PyFloat.round2 monthlyCost
          yearly_cost := PyFloat.round2 (PyFloat.mul monthlyCost (PyFloat.finite 12))
          explanation := "Bank/service fees: " ++ toString g.2.1.length ++
            " charges totaling $" ++ fmtF2 g.2.2 }
    else none)

/-- `analyzer._detect_food_delivery`. -/
def detectFoodDelivery (md : List (String × List Txn × PyFloat))
    (excludeMerchants : List String) : List Leak :=
  md.filterMap (fun g =>
    if excludeMerchants.contains g.1 then none
    else if FOOD_DELIVERY_KEYWORDS.any (fun kw => strContains g.1 kw) then
      let monthlyCost := PyFloat.divNat g.2.2 (max 1 (estimateMonths g.2.1))
      some
        { category := "Food Delivery"
          merchant := g.1
          monthly_cost := PyFloat.round2 monthlyCost
          yearly_cost := PyFloat.round2 (PyFloat.mul monthlyCost (PyFloat.finite 12))
          explanation := "Food delivery: " ++ toString g.2.1.length ++
            " orders totaling $" ++ fmtF2 g.2.2 }
    else none)

/-- `analyzer._detect_micro_leaks`. -/
def detectMicroLeaks (md : List (String × List Txn × PyFloat))
    (excludeMerchants : List String) : List Leak :=
  md.filterMap (fun g =>
    if excludeMerchants.contains g.1 then none
    else
      let amounts := g.2.1.map (fun t => t.amount.getD (PyFloat.finite 0))
      let avgAmount :=
        if amounts.isEmpty then PyFloat.finite 0
        else PyFloat.divNat (PyFloat.sumList amounts) amounts.length
      if PyFloat.lt avgAmount (PyFloat.finite 10) && g.2.1.length ≥ 10 then
        let monthlyCost := PyFloat.divNat g.2.2 (max 1 (estimateMonths g.2.1))
        some
          { category := "Small Frequent Purchases"
            merchant := g.1
            monthly_cost := PyFloat.round2 monthlyCost
            yearly_cost := PyFloat.round2 (PyFloat.mul monthlyCost (PyFloat.finite 12))
            explanation := "Convenience store purchases: Small amounts can add up over time" }
      else none)

/-- Lines 150-192 and 206 of `analyzer._heuristic_analysis`: the merged,
    sorted, capped `top_leaks` list. -/
def heuristicTopLeaks (transactions : List Txn)
    (subscriptions : List Subscription) : List Leak :=
  (sortDescBy (fun l => l.monthly_cost)
    (subscriptionLeaks subscriptions ++
      detectFees (merchantData transactions) (subscriptionMerchants subscriptions) ++
      detectFoodDelivery (merchantData transactions) (subscriptionMerchants subscriptions) ++
      detectMicroLeaks (merchantData transactions) (subscriptionMerchants subscriptions))).take 10

end Analyzer

/-! ## Concrete inputs used by the claims -/

/-- Shorthand for a finite float. -/
def pf (n : ℤ) (d : ℕ) : PyFloat := PyFloat.finite ⟨n, d⟩

/-- Build a categorized transaction. -/
def mkTxn (date merchant : String) (num : ℤ) (den : ℕ)
    (category : String := "Other") : Txn :=
  { date := date, merchant := merchant, normalized_merchant := some merchant,
    amount := some (pf num den), category := category }

/-- Three NETFLIX charges of $15.99, 30 days apart. -/
def netflixThree : List Txn :=
  [mkTxn "2025-01-01" "NETFLIX" 1599 100 "Subscriptions",
   mkTxn "2025-01-31" "NETFLIX" 1599 100 "Subscriptions",
   mkTxn "2025-03-02" "NETFLIX" 1599 100 "Subscriptions"]

/-- A single NETFLIX charge of $15.99. -/
def netflixOne : List Txn :=
  [mkTxn "2025-01-01" "NETFLIX" 1599 100 "Subscriptions"]

/-- Three NETFLIX charges of $10.00, $10.00 and $10.01 (their mean,
    $10.00333..., does not survive rounding to cents). -/
def netflixUneven : List Txn :=
  [mkTxn "2025-01-01" "NETFLIX" 10 1 "Subscriptions",
   mkTxn "2025-01-15" "NETFLIX" 10 1 "Subscriptions",
   mkTxn "2025-01-29" "NETFLIX" 1001 100 "Subscriptions"]

/-- Four charges of exactly $45.00 every 30 days for a merchant matching
    no keyword. -/
def acmeFour : List Txn :=
  [mkTxn "2025-01-01" "ACME" 45 1,
   mkTxn "2025-01-31" "ACME" 45 1,
   mkTxn "2025-03-02" "ACME" 45 1,
   mkTxn "2025-04-01" "ACME" 45 1]

/-- Two charges of $12.00 and $12.50, 30 days apart, for a merchant
    matching no keyword. -/
def acmeTwo : List Txn :=
  [mkTxn "2025-01-01" "ACME" 12 1,
   mkTxn "2025-01-31" "ACME" 1250 100]

/-- Two transactions exactly 60 days apart, in two distinct months. -/
def spanSixty : List Txn :=
  [mkTxn "2025-01-01" "ALPHA" 10 1,
   mkTxn "2025-03-02" "BETA" 20 1]

/-- Two transactions 59 days apart. -/
def spanFiftyNine : List Txn :=
  [mkTxn "2025-01-01" "ALPHA" 10 1,
   mkTxn "2025-03-01" "BETA" 20 1]

/-- Two transactions 61 days apart, in two distinct months. -/
def spanSixtyOne : List Txn :=
  [mkTxn "2025-01-01" "ALPHA" 10 1,
   mkTxn "2025-03-03" "BETA" 20 1]

/-- One transaction for a merchant matching both a fee keyword ("FEE")
    and a food-delivery keyword ("UBER EATS"). -/
def uberEatsFee : List Txn :=
  [mkTxn "2025-01-01" "UBER EATS FEE" 20 1 "Dining & Delivery"]

def netflixSub : Detector.Subscription :=
  { merchant := "NETFLIX", monthly_cost := pf 1599 100,
    annual_cost := pf 4797 25, confidence := ⟨19, 20⟩,
    last_date := "2025-03-02", occurrences := 3,
    reason := "Known subscription service" }

def netflixOneSub : Detector.Subscription :=
  { merchant := "NETFLIX", monthly_cost := pf 1599 100,
    annual_cost := pf 4797 25, confidence := ⟨19, 20⟩,
    last_date := "2025-01-01", occurrences := 1,
    reason := "Known subscription service" }

def netflixUnevenSub : Detector.Subscription :=
  { merchant := "NETFLIX", monthly_cost := pf 10 1,
    annual_cost := pf 3001 25, confidence := ⟨19, 20⟩,
    last_date := "2025-01-29", occurrences := 3,
    reason := "Known subscription service" }

/-- Mixed input for the C6 witness: one known subscription plus a bank
    fee merchant. -/
def mixedTxns : List Txn :=
  [mkTxn "2025-01-01" "NETFLIX" 1599 100 "Subscriptions",
   mkTxn "2025-01-05" "BANK FEE" 5 1 "Fees"]

def mixedSubLeak : Analyzer.Leak :=
  { category := "Subscription", merchant := "NETFLIX",
    monthly_cost := pf 1599 100, yearly_cost := pf 4797 25,
    explanation := "Known subscription service" }

def mixedFeeLeak : Analyzer.Leak :=
  { category := "Fees & Charges", merchant := "BANK FEE",
    monthly_cost := pf 167 100, yearly_cost := pf 20 1,
    explanation := "Bank/service fees: 1 charges totaling $5.00" }

/-! ## Theorems -/

open Detector in
/-- Inversion for `processGroup`: an emitted subscription is the record
    built from the group's derived statistics, and it passed the gate. -/
lemma processGroup_inv {m : String} {ts : List Txn} {s : Subscription}
    (h : processGroup m ts = some s) :
    s = { merchant := m
          monthly_cost := PyFloat.round2 (groupAvg ts)
          annual_cost := PyFloat.round2 (PyFloat.mul (groupAvg ts) (PyFloat.finite 12))
          confidence := (confidenceReason (isKnownSub m) (isRecurringPattern m)
            ts.length (isConsistentG ts) (isLooselyConsistentG ts)
            (isPeriodicG ts) (avgIntervalG ts) (groupAvg ts)).1
          last_date := lastDateG ts
          occurrences := ts.length
          reason := (confidenceReason (isKnownSub m) (isRecurringPattern m)
            ts.length (isConsistentG ts) (isLooselyConsistentG ts)
            (isPeriodicG ts) (avgIntervalG ts) (groupAvg ts)).2 } ∧
    Q.le ⟨1, 2⟩ s.confidence = true ∧
    PyFloat.lt (PyFloat.finite 0) (groupAvg ts) = true ∧
    (groupAvg ts).isnan = false := by
  simp only [processGroup] at h
  split at h
  · simp at h
  split at h
  · simp at h
  split at h
  case _ hg =>
    simp only [Option.some.injEq] at h
    subst h
    simp only [Bool.and_eq_true, Bool.not_eq_true'] at hg
    exact ⟨rfl, hg.1.1, hg.1.2, hg.2⟩
  · simp at h

open Detector in
lemma confidenceReason_known (r : Bool) (n : ℕ) (c l p : Bool) (ai : Q)
    (avg : PyFloat) :
    confidenceReason true r n c l p ai avg =
      (⟨19, 20⟩, "Known subscription service") := rfl

open Detector in
/-- C1: a merchant group whose key matches a known-subscription keyword is
    always scored 0.95 with reason "Known subscription service", whatever
    its occurrence count, amounts or cadence; in particular three NETFLIX
    charges of $15.99, 30 days apart, come out at confidence 0.95. -/
theorem c1_known_subscription_confidence :
    (∀ (m : String) (ts : List Txn) (s : Subscription),
      isKnownSub m = true → processGroup m ts = some s →
      s.confidence = ⟨19, 20⟩ ∧ s.reason = "Known subscription service") ∧
    (detect_subscriptions netflixThree).map
      (fun s => (s.merchant, s.confidence, s.reason)) =
      [("NETFLIX", (⟨19, 20⟩ : Q), "Known subscription service")] := by
  constructor
  · intro m ts s hknown h
    obtain ⟨hs, -, -, -⟩ := processGroup_inv h
    subst hs
    rw [hknown, confidenceReason_known]
    exact ⟨rfl, rfl⟩
  · decide


/-- Witness for C1 at the NETFLIX group. -/
theorem c1_witness :
    netflixSub.confidence = ⟨19, 20⟩ ∧
    netflixSub.reason = "Known subscription service" :=
  c1_known_subscription_confidence.1 "NETFLIX" netflixThree netflixSub
    (by decide) (by decide)

open Detector in
/-- C2 counterexample: a known-subscription merchant with exactly one
    occurrence is emitted at confidence 0.95, not the claimed 0.6. -/
theorem c2_counterexample :
    (detect_subscriptions netflixOne).map
      (fun s => (s.confidence, s.occurrences, s.reason)) =
      [((⟨19, 20⟩ : Q), 1, "Known subscription service")] ∧
    (⟨19, 20⟩ : Q) ≠ ⟨3, 5⟩ := by decide

open Detector in
/-- C2 amended: a known-subscription merchant group with exactly one
    occurrence is scored 0.95 by the first ladder rung; the 0.6 rung is
    unreachable for it. -/
theorem c2_single_known_sub :
    (∀ (m : String) (ts : List Txn) (s : Subscription),
      isKnownSub m = true → ts.length = 1 → processGroup m ts = some s →
      s.confidence = ⟨19, 20⟩ ∧ s.confidence ≠ ⟨3, 5⟩) ∧
    (detect_subscriptions netflixOne).map (fun s => s.confidence) =
      [(⟨19, 20⟩ : Q)] := by
  constructor
  · intro m ts s hknown _ h
    obtain ⟨hs, -, -, -⟩ := processGroup_inv h
    subst hs
    rw [hknown, confidenceReason_known]
    refine ⟨rfl, ?_⟩
    intro hc
    simp only [Subscription.confidence] at hc
    cases hc
  · decide


/-- Witness for C2's amended claim at the one-charge NETFLIX group. -/
theorem c2_witness :
    netflixOneSub.confidence = ⟨19, 20⟩ ∧ netflixOneSub.confidence ≠ ⟨3, 5⟩ :=
  c2_single_known_sub.1 "NETFLIX" netflixOne netflixOneSub
    (by decide) (by decide) (by decide)

open Detector in
/-- C7: with no known-subscription and no recurring-pattern keyword, a
    consistent periodic group of at least 3 charges is scored 0.85, and a
    consistent group of exactly 2 charges is scored 0.7; in particular
    4 charges of $45.00 every 30 days give 0.85 and two charges of $12.00
    and $12.50 thirty days apart give 0.7. -/
theorem c7_unknown_merchant_ladder :
    (∀ (k : ℕ) (l : Bool) (ai : Q) (avg : PyFloat),
      (confidenceReason false false (k + 3) true l true ai avg).1 = ⟨17, 20⟩) ∧
    (∀ (l p : Bool) (ai : Q) (avg : PyFloat),
      (confidenceReason false false 2 true l p ai avg).1 = ⟨7, 10⟩) ∧
    (detect_subscriptions acmeFour).map (fun s => s.confidence) = [(⟨17, 20⟩ : Q)] ∧
    (detect_subscriptions acmeTwo).map (fun s => s.confidence) = [(⟨7, 10⟩ : Q)] := by
  refine ⟨?_, ?_, by decide, by decide⟩
  · intro k l ai avg
    simp [confidenceReason]
  · intro l p ai avg
    cases p <;> simp [confidenceReason]

/-- C8: the five spec amount strings parse to 1234.56, 1234.56, -50.0,
    -50.0 and 123456.78 respectively. -/
theorem c8_amount_parsing :
    Parser.parse_amount "$1,234.56" = some (pf 30864 25) ∧
    Parser.parse_amount "1,234.56" = some (pf 30864 25) ∧
    Parser.parse_amount "(50.00)" = some (pf (-50) 1) ∧
    Parser.parse_amount "-50.00" = some (pf (-50) 1) ∧
    Parser.parse_amount "₹1,23,456.78" = some (pf 6172839 50) := by
  refine ⟨by decide, by decide, by decide, by decide, by decide⟩

/-- C10: `parse_amount` succeeds on "nan" and "inf" and returns a
    non-finite float, so success does not guarantee a finite result. -/
theorem c10_nonfinite_parse :
    Parser.parse_amount "nan" = some PyFloat.nan ∧
    Parser.parse_amount "inf" = some PyFloat.inf ∧
    PyFloat.nan.isFinite = false ∧ PyFloat.inf.isFinite = false ∧
    ("nan" : String) ≠ "" ∧ ("inf" : String) ≠ "" := by
  refine ⟨by decide, by decide, rfl, rfl, by decide, by decide⟩

open Categorizer in
/-- C5 counterexample: stripping the asterisks in "AB 12**34" creates the
    digit run "1234", which the (earlier) long-digit pattern only removes
    on a second pass, so `normalize` is not idempotent. -/
theorem c5_counterexample :
    normalize_merchant "AB 12**34" = "AB 1234" ∧
    normalize_merchant (normalize_merchant "AB 12**34") = "AB" ∧
    normalize_merchant (normalize_merchant "AB 12**34") ≠
      normalize_merchant "AB 12**34" := by
  refine ⟨by decide, by decide, by decide⟩

open Categorizer in
/-- C5 amended: `normalize` is not idempotent on every string (noise
    stripping can manufacture new noise tokens); it is idempotent on
    representative observed merchant strings. -/
theorem c5_idempotent_on_observed :
    normalize_merchant (normalize_merchant "NETFLIX.COM") =
      normalize_merchant "NETFLIX.COM" ∧
    normalize_merchant (normalize_merchant "SQ *COFFEE SHOP 1234") =
      normalize_merchant "SQ *COFFEE SHOP 1234" ∧
    normalize_merchant (normalize_merchant "PAYPAL *SPOTIFY 4029357733") =
      normalize_merchant "PAYPAL *SPOTIFY 4029357733" ∧
    normalize_merchant (normalize_merchant "VISA PURCHASE 1234 UBER TRIP REF: 88AB2") =
      normalize_merchant "VISA PURCHASE 1234 UBER TRIP REF: 88AB2" ∧
    normalize_merchant (normalize_merchant "DIRECT DEBIT GYM MEMBERSHIP #998877") =
      normalize_merchant "DIRECT DEBIT GYM MEMBERSHIP #998877" := by
  refine ⟨by decide, by decide, by decide, by decide, by decide⟩

open Detector in
/-- C4 counterexample: for NETFLIX charges of $10.00, $10.00, $10.01 the
    average is $10.00333..., so `monthly_cost` (rounded to cents) is not
    the average, and `annual_cost` is not `monthly_cost × 12`. -/
theorem c4_counterexample :
    (detect_subscriptions netflixUneven).map
      (fun s => (s.monthly_cost, s.annual_cost)) = [(pf 10 1, pf 3001 25)] ∧
    groupAvg netflixUneven = pf 3001 300 ∧
    pf 10 1 ≠ pf 3001 300 ∧
    (pf 3001 25 : PyFloat) ≠ PyFloat.mul (pf 10 1) (PyFloat.finite 12) := by
  refine ⟨by decide, by decide, by decide, by decide⟩

open Detector in
lemma confidenceReason_fst_mem (k r : Bool) (n : ℕ) (c l p : Bool) (ai : Q)
    (avg : PyFloat) :
    (confidenceReason k r n c l p ai avg).1 ∈
      ([0, ⟨3, 5⟩, ⟨7, 10⟩, ⟨3, 4⟩, ⟨17, 20⟩, ⟨9, 10⟩, ⟨19, 20⟩] : List Q) := by
  unfold confidenceReason
  repeat' split
  all_goals simp

open Detector in
lemma pyFloat_lt_asymm {a b : PyFloat} (h : PyFloat.lt a b = true) :
    PyFloat.lt b a = false := by
  cases a <;> cases b
  all_goals simp_all [PyFloat.lt, Q.lt]
  omega

open Detector in
lemma insertDescBy_head {α : Type} (key : α → PyFloat) (x : α) (l : List α) :
    (insertDescBy key x l).head? = some x ∨ (insertDescBy key x l).head? = l.head? := by
  cases l with
  | nil => left; rfl
  | cons y ys =>
    unfold insertDescBy
    split
    · left; rfl
    · right; rfl

open Detector in
lemma chain_insertDescBy {α : Type} (key : α → PyFloat) (x : α) (l : List α)
    (h : l.Chain' (fun a b => PyFloat.lt (key a) (key b) = false)) :
    (insertDescBy key x l).Chain' (fun a b => PyFloat.lt (key a) (key b) = false) := by
  induction l with
  | nil => simp [insertDescBy]
  | cons y ys ih =>
    unfold insertDescBy
    split
    case isTrue hlt =>
      exact List.Chain'.cons (pyFloat_lt_asymm hlt) h
    case isFalse hlt =>
      rw [List.chain'_cons'] at h
      refine List.chain'_cons'.mpr ⟨?_, ih h.2⟩
      intro z hz
      rcases insertDescBy_head key x ys with he | he
      · rw [he] at hz
        cases hz
        simpa using hlt
      · rw [he] at hz
        exact h.1 z hz

open Detector in
lemma chain_sortDescBy {α : Type} (key : α → PyFloat) (l : List α) :
    (sortDescBy key l).Chain' (fun a b => PyFloat.lt (key a) (key b) = false) := by
  unfold sortDescBy
  suffices hgen : ∀ (acc : List α),
      acc.Chain' (fun a b => PyFloat.lt (key a) (key b) = false) →
      (l.foldl (fun acc x => insertDescBy key x acc) acc).Chain'
        (fun a b => PyFloat.lt (key a) (key b) = false) by
    exact hgen [] (by simp)
  induction l with
  | nil => intro acc hacc; exact hacc
  | cons x xs ih =>
    intro acc hacc
    exact ih _ (chain_insertDescBy key x acc hacc)

open Detector in
/-- C4 amended: every emitted subscription has confidence in the discrete
    ladder set, `monthly_cost` equal to the group average rounded to
    cents, `annual_cost` equal to `avg × 12` rounded to cents, a strictly
    positive non-NaN group average, and the output is sorted so that no
    later entry has a strictly larger `monthly_cost`. -/
theorem c4_output_invariants :
    (∀ (m : String) (ts : List Txn) (s : Subscription),
      processGroup m ts = some s →
      s.confidence ∈ ([⟨3, 5⟩, ⟨7, 10⟩, ⟨3, 4⟩, ⟨17, 20⟩, ⟨9, 10⟩, ⟨19, 20⟩] : List Q) ∧
      s.monthly_cost = PyFloat.round2 (groupAvg ts) ∧
      s.annual_cost = PyFloat.round2 (PyFloat.mul (groupAvg ts) (PyFloat.finite 12)) ∧
      PyFloat.lt (PyFloat.finite 0) (groupAvg ts) = true ∧
      (groupAvg ts).isnan = false) ∧
    (∀ txns : List Txn,
      (detect_subscriptions txns).Chain'
        (fun a b => PyFloat.lt a.monthly_cost b.monthly_cost = false)) := by
  constructor
  · intro m ts s h
    obtain ⟨hs, hle, hpos, hnan⟩ := processGroup_inv h
    refine ⟨?_, by rw [hs], by rw [hs], hpos, hnan⟩
    have hmem := confidenceReason_fst_mem (isKnownSub m) (isRecurringPattern m)
      ts.length (isConsistentG ts) (isLooselyConsistentG ts)
      (isPeriodicG ts) (avgIntervalG ts) (groupAvg ts)
    have hconf : s.confidence = (confidenceReason (isKnownSub m)
        (isRecurringPattern m) ts.length (isConsistentG ts)
        (isLooselyConsistentG ts) (isPeriodicG ts) (avgIntervalG ts)
        (groupAvg ts)).1 := by rw [hs]
    rw [← hconf] at hmem
    rcases List.mem_cons.mp hmem with h0 | hrest
    · rw [h0] at hle
      exact absurd hle (by decide)
    · exact hrest
  · intro txns
    exact chain_sortDescBy _ _


/-- Witness for C4's amended claim at the uneven NETFLIX group. -/
theorem c4_witness :
    netflixUnevenSub.confidence ∈
      ([⟨3, 5⟩, ⟨7, 10⟩, ⟨3, 4⟩, ⟨17, 20⟩, ⟨9, 10⟩, ⟨19, 20⟩] : List Q) ∧
    netflixUnevenSub.monthly_cost =
      PyFloat.round2 (Detector.groupAvg netflixUneven) ∧
    netflixUnevenSub.annual_cost =
      PyFloat.round2 (PyFloat.mul (Detector.groupAvg netflixUneven) (PyFloat.finite 12)) ∧
    PyFloat.lt (PyFloat.finite 0) (Detector.groupAvg netflixUneven) = true ∧
    (Detector.groupAvg netflixUneven).isnan = false :=
  c4_output_invariants.1 "NETFLIX" netflixUneven netflixUnevenSub (by decide)

open Detector in
lemma insertStrAsc_length (s : String) (l : List String) :
    (insertStrAsc s l).length = l.length + 1 := by
  induction l with
  | nil => rfl
  | cons x xs ih =>
    unfold insertStrAsc
    split
    · rfl
    · simp [ih]

open Detector in
lemma sortStrings_length (l : List String) :
    (sortStrings l).length = l.length := by
  unfold sortStrings
  suffices hgen : ∀ acc : List String,
      (l.foldl (fun acc s => insertStrAsc s acc) acc).length =
        acc.length + l.length by
    simpa using hgen []
  induction l with
  | nil => intro acc; simp
  | cons x xs ih =>
    intro acc
    simp only [List.foldl_cons]
    rw [ih (insertStrAsc x acc), insertStrAsc_length]
    simp only [List.length_cons]
    omega

open Detector in
/-- C3 amended: the month comparison is `None` exactly when the parseable
    date span is strictly below 60 days or fewer than two distinct
    non-Income months exist; 59-day data gives `None` and 61-day data with
    two months does not. -/
theorem c3_month_comparison_gate :
    (∀ txns : List Txn, (∀ t ∈ txns, t.amount ≠ none) →
      (generate_month_comparison txns = none ↔
        (detect_date_range txns).2.2 < 60 ∨ (monthlyData txns).length < 2)) ∧
    generate_month_comparison spanFiftyNine = none ∧
    generate_month_comparison spanSixtyOne ≠ none := by
  refine ⟨?_, by decide, by decide⟩
  intro txns _
  simp only [generate_month_comparison]
  split
  case isTrue hdays => simp [hdays]
  case isFalse hdays =>
    split
    case isTrue hlen => simp [hdays, hlen]
    case isFalse hlen =>
      have h2 : 2 ≤ (monthlyData txns).length := by omega
      have hdrop : ((sortStrings ((monthlyData txns).map (·.1))).drop
          ((sortStrings ((monthlyData txns).map (·.1))).length - 2)).length = 2 := by
        rw [List.length_drop, sortStrings_length, List.length_map]
        omega
      obtain ⟨a, b, hab⟩ := List.length_eq_two.mp hdrop
      rw [hab]
      simp [hdays, hlen]

open Detector in
/-- C3 counterexample: a span of exactly 60 days (which "does not exceed
    60 days") with two distinct months yields a non-null comparison. -/
theorem c3_counterexample :
    (detect_date_range spanSixty).2.2 = 60 ∧
    (monthlyData spanSixty).length = 2 ∧
    generate_month_comparison spanSixty ≠ none := by
  refine ⟨by decide, by decide, by decide⟩

open Detector in
/-- Witness for C3's amended claim at the 61-day input. -/
theorem c3_witness :
    generate_month_comparison spanSixtyOne = none ↔
      (detect_date_range spanSixtyOne).2.2 < 60 ∨
      (monthlyData spanSixtyOne).length < 2 :=
  c3_month_comparison_gate.1 spanSixtyOne (by decide)

open Detector in
lemma mem_insertDescBy {α : Type} (key : α → PyFloat) (x a : α) (l : List α) :
    a ∈ insertDescBy key x l ↔ a = x ∨ a ∈ l := by
  induction l with
  | nil => simp [insertDescBy]
  | cons y ys ih =>
    unfold insertDescBy
    split
    · simp [or_comm, or_left_comm]
    · simp [ih, or_comm, or_left_comm]

open Detector in
lemma mem_sortDescBy {α : Type} (key : α → PyFloat) (a : α) (l : List α) :
    a ∈ sortDescBy key l ↔ a ∈ l := by
  unfold sortDescBy
  suffices hgen : ∀ acc : List α,
      (a ∈ l.foldl (fun acc x => insertDescBy key x acc) acc ↔ a ∈ acc ∨ a ∈ l) by
    simpa using hgen []
  induction l with
  | nil => intro acc; simp
  | cons x xs ih =>
    intro acc
    simp only [List.foldl_cons]
    rw [ih (insertDescBy key x acc)]
    rw [mem_insertDescBy]
    simp only [List.mem_cons]
    tauto

namespace Analyzer

open Detector

lemma subscriptionLeaks_spec (subs : List Subscription) (l : Leak)
    (h : l ∈ subscriptionLeaks subs) :
    l.category = "Subscription" ∧ l.merchant ∈ subscriptionMerchants subs := by
  unfold subscriptionLeaks at h
  rw [List.mem_filterMap] at h
  obtain ⟨sub, hsub, heq⟩ := h
  by_cases hc : Q.le ⟨1, 2⟩ sub.confidence = true
  · rw [if_pos hc] at heq
    cases heq
    refine ⟨rfl, ?_⟩
    unfold subscriptionMerchants
    rw [List.mem_map]
    exact ⟨sub, List.mem_filter.mpr ⟨hsub, hc⟩, rfl⟩
  · rw [if_neg hc] at heq
    cases heq

lemma detectFees_spec (md : List (String × List Txn × PyFloat))
    (excl : List String) (l : Leak) (h : l ∈ detectFees md excl) :
    l.category = "Fees & Charges" ∧ l.merchant ∉ excl := by
  unfold detectFees at h
  rw [List.mem_filterMap] at h
  obtain ⟨g, _, heq⟩ := h
  by_cases hc : excl.contains g.1 = true
  · rw [if_pos hc] at heq; cases heq
  · rw [if_neg hc] at heq
    split at heq
    · cases heq
      refine ⟨rfl, ?_⟩
      intro hmem
      exact hc (List.elem_iff.mpr hmem)
    · cases heq

lemma detectFoodDelivery_spec (md : List (String × List Txn × PyFloat))
    (excl : List String) (l : Leak) (h : l ∈ detectFoodDelivery md excl) :
    l.category = "Food Delivery" ∧ l.merchant ∉ excl := by
  unfold detectFoodDelivery at h
  rw [List.mem_filterMap] at h
  obtain ⟨g, _, heq⟩ := h
  by_cases hc : excl.contains g.1 = true
  · rw [if_pos hc] at heq; cases heq
  · rw [if_neg hc] at heq
    split at heq
    · cases heq
      refine ⟨rfl, ?_⟩
      intro hmem
      exact hc (List.elem_iff.mpr hmem)
    · cases heq

lemma detectMicroLeaks_spec (md : List (String × List Txn × PyFloat))
    (excl : List String) (l : Leak) (h : l ∈ detectMicroLeaks md excl) :
    l.category = "Small Frequent Purchases" ∧ l.merchant ∉ excl := by
  simp only [detectMicroLeaks] at h
  rw [List.mem_filterMap] at h
  obtain ⟨g, _, heq⟩ := h
  by_cases hc : excl.contains g.1 = true
  · rw [if_pos hc] at heq; cases heq
  · rw [if_neg hc] at heq
    repeat' split at heq
    all_goals cases heq
    all_goals exact ⟨rfl, fun hmem => hc (List.elem_iff.mpr hmem)⟩

end Analyzer

open Detector Analyzer in
/-- C6 amended: a merchant reported as a Subscription leak never also
    appears as a fee, food-delivery or micro-purchase leak in the merged
    `top_leaks` list (those scans exclude subscription merchants); the
    converse double counting between the non-subscription categories is
    possible. -/
theorem c6_subscription_not_double_counted :
    ∀ (txns : List Txn) (subs : List Subscription) (l1 l2 : Leak),
      l1 ∈ heuristicTopLeaks txns subs → l2 ∈ heuristicTopLeaks txns subs →
      l1.category = "Subscription" → l2.category ≠ "Subscription" →
      l1.merchant ≠ l2.merchant := by
  intro txns subs l1 l2 h1 h2 hc1 hc2
  simp only [heuristicTopLeaks] at h1 h2
  have m1 := (mem_sortDescBy _ _ _).mp (List.mem_of_mem_take h1)
  have m2 := (mem_sortDescBy _ _ _).mp (List.mem_of_mem_take h2)
  simp only [List.mem_append] at m1 m2
  have hl1 : l1.merchant ∈ subscriptionMerchants subs := by
    rcases m1 with ((h | h) | h) | h
    · exact (subscriptionLeaks_spec _ _ h).2
    · rw [(detectFees_spec _ _ _ h).1] at hc1; exact absurd hc1 (by decide)
    · rw [(detectFoodDelivery_spec _ _ _ h).1] at hc1; exact absurd hc1 (by decide)
    · rw [(detectMicroLeaks_spec _ _ _ h).1] at hc1; exact absurd hc1 (by decide)
  have hl2 : l2.merchant ∉ subscriptionMerchants subs := by
    rcases m2 with ((h | h) | h) | h
    · exact absurd (subscriptionLeaks_spec _ _ h).1 hc2
    · exact (detectFees_spec _ _ _ h).2
    · exact (detectFoodDelivery_spec _ _ _ h).2
    · exact (detectMicroLeaks_spec _ _ _ h).2
  intro heq
  rw [heq] at hl1
  exact hl2 hl1

open Detector Analyzer in
/-- C6 counterexample: the merchant "UBER EATS FEE" matches both a fee
    keyword and a food-delivery keyword and is not a subscription, so it
    is counted in two leak categories of the same report. -/
theorem c6_counterexample :
    (heuristicTopLeaks uberEatsFee (detect_subscriptions uberEatsFee)).map
      (fun l => (l.category, l.merchant)) =
      [("Fees & Charges", "UBER EATS FEE"), ("Food Delivery", "UBER EATS FEE")] ∧
    ("Fees & Charges" : String) ≠ "Food Delivery" := by
  refine ⟨by decide, by decide⟩




/-- Witness for C6's amended claim on a mixed subscription + fee input. -/
theorem c6_witness : mixedSubLeak.merchant ≠ mixedFeeLeak.merchant :=
  c6_subscription_not_double_counted mixedTxns
    (Detector.detect_subscriptions mixedTxns) mixedSubLeak mixedFeeLeak
    (by decide) (by decide) (by decide) (by decide)

lemma isPyWs_upPairs : ∀ p ∈ upPairs, isPyWs p.2 = false ∧ isPyWs p.1 = false := by
  decide

lemma isPyWs_pyUpperChar_of_not (c : Char) (hws : isPyWs c = false) :
    isPyWs (pyUpperChar c) = false := by
  unfold pyUpperChar
  cases hfind : upPairs.find? (fun p => p.1 = c) with
  | none => simpa using hws
  | some p =>
    have hp := List.mem_of_find?_eq_some hfind
    simpa using (isPyWs_upPairs p hp).1

lemma exists_not_mem_dropWhile (p : Char → Bool) (l : List Char)
    (h : ∃ x ∈ l, p x = false) :
    ∃ x ∈ l.dropWhile p, p x = false := by
  induction l with
  | nil => simp at h
  | cons c cs ih =>
    obtain ⟨x, hx, hpx⟩ := h
    by_cases hpc : p c = true
    · rw [List.dropWhile_cons, if_pos hpc]
      apply ih
      rcases List.mem_cons.mp hx with rfl | hx2
      · rw [hpc] at hpx; cases hpx
      · exact ⟨x, hx2, hpx⟩
    · rw [List.dropWhile_cons, if_neg hpc]
      exact ⟨x, hx, hpx⟩

lemma pyStrip_toList_ne_nil (l : List Char)
    (h : ∃ x ∈ l, isPyWs x = false) :
    ((l.dropWhile isPyWs).reverse.dropWhile isPyWs).reverse ≠ [] := by
  have h1 := exists_not_mem_dropWhile isPyWs l h
  have h2 : ∃ x ∈ (l.dropWhile isPyWs).reverse, isPyWs x = false := by
    obtain ⟨x, hx, hpx⟩ := h1
    exact ⟨x, List.mem_reverse.mpr hx, hpx⟩
  have h3 := exists_not_mem_dropWhile isPyWs _ h2
  obtain ⟨x, hx, -⟩ := h3
  intro hnil
  rw [List.reverse_eq_nil_iff] at hnil
  rw [hnil] at hx
  cases hx

lemma stringMk_eq_empty_iff (l : List Char) : String.mk l = "" ↔ l = [] := by
  rw [show ("" : String) = String.mk [] from rfl]
  constructor
  · intro h
    injection h
  · intro h
    rw [h]

open Categorizer in
/-- C9 amended: `normalize_merchant` returns a non-empty string for every
    input containing at least one non-whitespace character (a whitespace-
    only input is normalized to the empty string), and whenever noise
    stripping empties the string the uppercased-stripped original is
    returned. -/
theorem c9_nonempty_normalization :
    (∀ s : String, s.toList.any (fun c => !isPyWs c) = true →
      normalize_merchant s ≠ "") ∧
    (∀ s : String, s ≠ "" → noiseStripped s = "" →
      normalize_merchant s = pyStrip (pyUpper s)) := by
  constructor
  · intro s hany
    have hne : s ≠ "" := by
      intro hs
      rw [hs] at hany
      cases hany
    unfold normalize_merchant
    rw [if_neg hne]
    by_cases hn : noiseStripped s = ""
    · simp only [hn, ne_eq, not_true_eq_false, if_false]
      obtain ⟨c, hc, hpc⟩ := List.any_eq_true.mp hany
      rw [Bool.not_eq_true'] at hpc
      unfold pyStrip
      intro hmk
      refine pyStrip_toList_ne_nil _ ⟨pyUpperChar c, ?_, isPyWs_pyUpperChar_of_not c hpc⟩
        ((stringMk_eq_empty_iff _).mp hmk)
      show pyUpperChar c ∈ (pyUpper s).toList
      unfold pyUpper
      exact List.mem_map_of_mem pyUpperChar hc
    · simp only [ne_eq, hn, not_false_eq_true, if_true]
  · intro s hne hns
    unfold normalize_merchant
    rw [if_neg hne]
    simp [hns]

open Categorizer in
/-- C9 counterexample: the one-character string " " is non-empty, yet
    `normalize_merchant` maps it to the empty string (both the stripped
    result and the uppercase-trimmed fallback are empty). -/
theorem c9_counterexample :
    (" " : String) ≠ "" ∧ normalize_merchant " " = "" := by
  refine ⟨by decide, by decide⟩

open Categorizer in
/-- Witness for C9's amended claim. -/
theorem c9_witness : normalize_merchant "NETFLIX" ≠ "" :=
  c9_nonempty_normalization.1 "NETFLIX" (by decide)
